import Mathlib

/-!
Verification development for the live-file reconciliation core
(`src/common/livefile/useLiveFileComparison.tsx`).

The file embeds the data model and the operations of the hook
`useLiveFileComparison`: the diff summarisation (`calculateDiffStats`),
the divergence-recomputation effect, the error-override effect, the
reload callback, the focus-triggered refresh, and the pairing error
handler. Parts of the program that live outside the given sources
(the `store-live-file` Gateway and the third-party diff engine) are
modelled from the specification; each such definition carries a doc
comment starting with "Modelled from the spec:".
-/

namespace LiveFile

/-- Summary of a character-based diff: `interface DiffSummary`. -/
structure DiffSummary where
  insertions : Nat
  deletions : Nat
deriving DecidableEq, BEq

/-- Status kinds, the `mtype` union of `FileOperationStatus`: info,
changes, success, error. -/
inductive MType where
  | info
  | changes
  | success
  | error
deriving DecidableEq, BEq

/-- User-facing narration: `interface FileOperationStatus`. -/
structure FileOperationStatus where
  message : String
  mtype : MType
deriving DecidableEq, BEq

/-- An edit script: list of `[operation, text]` pairs as produced by the
diff engine, with operation `1` = insertion, `-1` = deletion, `0` = equal. -/
abbrev DiffScript := List (Int × List Char)

/-- Length of the common prefix of two character lists. -/
def commonPrefixLen : List Char → List Char → Nat
  | a :: as, b :: bs => if a = b then commonPrefixLen as bs + 1 else 0
  | _, _ => 0

/-- Length of the common suffix of two character lists. -/
def commonSuffixLen (a b : List Char) : Nat :=
  commonPrefixLen a.reverse b.reverse

/-- Modelled from the spec: the middle step of the diff engine after the
common prefix and suffix have been stripped. Source: the engine is the
third-party `makeDiff` of `@sanity/diff-match-patch`, which is not among
the given sources; per §4.1 the core "does not implement a general-purpose
diff algorithm (it consumes one as a black box returning an edit script)".
When one side is empty the other side is a pure insertion or deletion;
otherwise the remainder is reported as one deletion plus one insertion. -/
def diffMiddle (a b : List Char) : DiffScript :=
  if a.isEmpty then
    (if b.isEmpty then [] else [(1, b)])
  else if b.isEmpty then
    [(-1, a)]
  else
    [(-1, a), (1, b)]

/-- Modelled from the spec: the diff engine `makeDiff(fromText, toText,
\x7btimeout: 1, checkLines: true\x7d)` of `@sanity/diff-match-patch`, which is
not among the given sources. Identical inputs yield a single equal span
(empty script when empty); otherwise the common prefix and suffix are
stripped and reported as equal spans around the middle edit script. The
timeout and line-mode knobs only coarsen the middle script and are not
modelled. -/
def makeDiff (fromText toText : List Char) : DiffScript :=
  if fromText = toText then
    (if fromText.isEmpty then [] else [(0, fromText)])
  else
    let p := commonPrefixLen fromText toText
    let a1 := fromText.drop p
    let b1 := toText.drop p
    let s := commonSuffixLen a1 b1
    let aMid := a1.take (a1.length - s)
    let bMid := b1.take (b1.length - s)
    [((0 : Int), fromText.take p)] ++ diffMiddle aMid bMid ++ [((0 : Int), a1.drop (a1.length - s))]

/-- Coalesce adjacent spans that carry the same operation. -/
def coalesce : DiffScript → DiffScript
  | [] => []
  | (o, t) :: rest =>
    match coalesce rest with
    | [] => [(o, t)]
    | (o2, t2) :: rest2 =>
      if o = o2 then (o, t ++ t2) :: rest2 else (o, t) :: (o2, t2) :: rest2

/-- Modelled from the spec: `cleanupEfficiency(diffs, 4)` of
`@sanity/diff-match-patch`, not among the given sources; per §4.1 it
"coalesces the result for readability before counting". Modelled as
coalescing of adjacent same-operation spans; the edit-cost knob is not
modelled. -/
def cleanupEfficiency (diffs : DiffScript) (_editCost : Nat) : DiffScript :=
  coalesce diffs

/-- The accumulator step of the `diffs.reduce` call in `calculateDiffStats`:
insertion spans add their length to `insertions`, deletion spans to
`deletions`, equal spans contribute nothing. -/
def diffStatsStep (acc : DiffSummary) (d : Int × List Char) : DiffSummary :=
  if d.1 = 1 then { acc with insertions := acc.insertions + d.2.length }
  else if d.1 = -1 then { acc with deletions := acc.deletions + d.2.length }
  else acc

/-- Source function `calculateDiffStats` (lines 24-36): run the
diff engine, coalesce, then reduce the script to insertion/deletion
character counts starting from `\x7binsertions: 0, deletions: 0\x7d`. -/
def calculateDiffStats (fromText toText : String) : DiffSummary :=
  let diffs := cleanupEfficiency (makeDiff fromText.toList toText.toList) 4
  diffs.foldl diffStatsStep { insertions := 0, deletions := 0 }

/-- Instrumented diff engine: the script together with the number of
engine invocations this call performs (always one). -/
def makeDiffInstr (fromText toText : List Char) : DiffScript × Nat :=
  (makeDiff fromText toText, 1)

/-- Variant of `calculateDiffStats` instrumented with the number of diff-engine
invocations. The source body (line 26) calls `makeDiff` unconditionally,
with no equality fast path of its own, so the count is one on every call,
identical inputs included. -/
def calculateDiffStatsInstr (fromText toText : String) : DiffSummary × Nat :=
  let dc := makeDiffInstr fromText.toList toText.toList
  ((cleanupEfficiency dc.1 4).foldl diffStatsStep { insertions := 0, deletions := 0 }, dc.2)

/-- Total length of the insertion spans of a script. -/
def insLen : DiffScript → Nat
  | [] => 0
  | (o, t) :: r => (if o = 1 then t.length else 0) + insLen r

/-- Total length of the deletion spans of a script. -/
def delLen : DiffScript → Nat
  | [] => 0
  | (o, t) :: r => (if o = -1 then t.length else 0) + delLen r

theorem insLen_append (l1 l2 : DiffScript) : insLen (l1 ++ l2) = insLen l1 + insLen l2 := by
  induction l1 with
  | nil => simp [insLen]
  | cons d r ih => simp [insLen, ih]; omega

theorem delLen_append (l1 l2 : DiffScript) : delLen (l1 ++ l2) = delLen l1 + delLen l2 := by
  induction l1 with
  | nil => simp [delLen]
  | cons d r ih => simp [delLen, ih]; omega

theorem insLen_coalesce (l : DiffScript) : insLen (coalesce l) = insLen l := by
  induction l with
  | nil => rfl
  | cons d r ih =>
    obtain ⟨o, t⟩ := d
    simp only [coalesce]
    cases h : coalesce r with
    | nil =>
      rw [h] at ih
      simp [insLen, ← ih]
    | cons d2 r2 =>
      obtain ⟨o2, t2⟩ := d2
      rw [h] at ih
      by_cases ho : o = o2
      · subst ho
        simp only [if_pos rfl]
        by_cases h1 : o = 1 <;> simp [insLen, h1] at ih ⊢ <;> omega
      · simp only [if_neg ho]
        simp [insLen] at ih ⊢
        omega

theorem delLen_coalesce (l : DiffScript) : delLen (coalesce l) = delLen l := by
  induction l with
  | nil => rfl
  | cons d r ih =>
    obtain ⟨o, t⟩ := d
    simp only [coalesce]
    cases h : coalesce r with
    | nil =>
      rw [h] at ih
      simp [delLen, ← ih]
    | cons d2 r2 =>
      obtain ⟨o2, t2⟩ := d2
      rw [h] at ih
      by_cases ho : o = o2
      · subst ho
        simp only [if_pos rfl]
        by_cases h1 : o = -1 <;> simp [delLen, h1] at ih ⊢ <;> omega
      · simp only [if_neg ho]
        simp [delLen] at ih ⊢
        omega

theorem foldl_diffStatsStep (l : DiffScript) (acc : DiffSummary) :
    l.foldl diffStatsStep acc = ⟨acc.insertions + insLen l, acc.deletions + delLen l⟩ := by
  induction l generalizing acc with
  | nil => simp [insLen, delLen]
  | cons d r ih =>
    obtain ⟨o, t⟩ := d
    simp only [List.foldl_cons, ih, diffStatsStep, insLen, delLen]
    by_cases h1 : o = 1
    · simp [h1]; omega
    · by_cases h2 : o = -1
      · simp [h1, h2]; omega
      · simp [h1, h2]

theorem calculateDiffStats_eq_lens (A B : String) :
    calculateDiffStats A B =
      ⟨insLen (makeDiff A.toList B.toList), delLen (makeDiff A.toList B.toList)⟩ := by
  simp [calculateDiffStats, cleanupEfficiency, foldl_diffStatsStep, insLen_coalesce, delLen_coalesce]

theorem commonPrefixLen_comm (a b : List Char) : commonPrefixLen a b = commonPrefixLen b a := by
  induction a generalizing b with
  | nil => cases b <;> rfl
  | cons x xs ih =>
    cases b with
    | nil => rfl
    | cons y ys =>
      by_cases h : x = y
      · subst h
        simp [commonPrefixLen, ih]
      · have h2 : ¬ y = x := fun hyx => h hyx.symm
        simp [commonPrefixLen, h, h2]

theorem commonSuffixLen_comm (a b : List Char) : commonSuffixLen a b = commonSuffixLen b a := by
  simp [commonSuffixLen, commonPrefixLen_comm]

theorem insLen_diffMiddle_swap (x y : List Char) :
    insLen (diffMiddle x y) = delLen (diffMiddle y x) := by
  by_cases hx : x.isEmpty <;> by_cases hy : y.isEmpty <;>
    simp [diffMiddle, hx, hy, insLen, delLen]

theorem insLen_makeDiff_swap (a b : List Char) :
    insLen (makeDiff a b) = delLen (makeDiff b a) := by
  by_cases hab : a = b
  · subst hab
    by_cases he : a.isEmpty <;> simp [makeDiff, he, insLen, delLen]
  · have hba : ¬ b = a := fun h => hab h.symm
    simp only [makeDiff, if_neg hab, if_neg hba]
    rw [commonPrefixLen_comm b a, commonSuffixLen_comm (b.drop (commonPrefixLen a b)) (a.drop (commonPrefixLen a b))]
    simp [insLen_append, delLen_append, insLen, delLen, insLen_diffMiddle_swap]

/-- Claim C7: for all texts A and B, the Diff Summarizer is symmetric under
swapping its arguments: `calculateDiffStats A B` has as many insertions as
`calculateDiffStats B A` has deletions, and conversely. -/
theorem calculateDiffStats_swap (A B : String) :
    (calculateDiffStats A B).insertions = (calculateDiffStats B A).deletions ∧
    (calculateDiffStats A B).deletions = (calculateDiffStats B A).insertions := by
  rw [calculateDiffStats_eq_lens, calculateDiffStats_eq_lens]
  exact ⟨insLen_makeDiff_swap A.toList B.toList, (insLen_makeDiff_swap B.toList A.toList).symm⟩

/-- Result of one run of the divergence-recomputation effect (source lines
79-106): the diff summary assigned by `setDiffSummary` (assigned on every
run), the status assigned by `setStatus` (`none` when the run performs no
`setStatus` call), and the number of `calculateDiffStats` invocations the
run performs. -/
structure RecomputeResult where
  summary : Option DiffSummary
  statusUpdate : Option FileOperationStatus
  diffCalls : Nat
deriving DecidableEq

/-- The divergence-recomputation effect body (source lines 79-106). When a
side is absent the summary is set to null and the effect returns without
touching the status; equal sides short-circuit to a zero summary and the
"identical" info status without calling `calculateDiffStats`; otherwise
the summary is computed and the status derived from it by the
insertions/deletions priority chain. -/
def recomputeDiffEffect (isMobile : Bool) (fileContent bufferText : Option String) :
    RecomputeResult :=
  match fileContent, bufferText with
  | some fc, some bt =>
    if fc = bt then
      { summary := some ⟨0, 0⟩
        statusUpdate := some ⟨if isMobile then "Identical to File." else "The File is identical to this Document.", MType.info⟩
        diffCalls := 0 }
    else
      let summary := calculateDiffStats fc bt
      { summary := some summary
        statusUpdate := some (
          if summary.insertions ≠ 0 ∧ summary.deletions ≠ 0 then
            ⟨"Document has " ++ toString summary.insertions ++ " insertions and " ++ toString summary.deletions ++ " deletions.", MType.changes⟩
          else if summary.insertions ≠ 0 then
            ⟨"Document has " ++ toString summary.insertions ++ " insertions.", MType.changes⟩
          else if summary.deletions ≠ 0 then
            ⟨"Document has " ++ toString summary.deletions ++ " deletions.", MType.changes⟩
          else
            ⟨"No changes.", MType.info⟩)
        diffCalls := 1 }
  | _, _ => { summary := none, statusUpdate := none, diffCalls := 0 }

/-- Inputs of one render of `useLiveFileComparison`: the pushed
`bufferText`, and `fileContent`, `fileErrorText` derived from the session
(`fileData?.content ?? undefined`, `fileData?.error ?? undefined`), plus
`isMobile`. -/
structure HookInput where
  bufferText : Option String
  fileContent : Option String
  fileErrorText : Option String
  isMobile : Bool
deriving DecidableEq

/-- Hook-local state: the two `useState` cells (`diffSummary`, `status`)
and the last-seen dependency arrays of the two effects (`none` before the
first run; effect one depends on `[bufferText, fileContent, isMobile]`,
effect two on `[fileErrorText]`). -/
structure HookState where
  diffSummary : Option DiffSummary
  status : Option FileOperationStatus
  deps1 : Option (Option String × Option String × Bool)
  deps2 : Option (Option String)
deriving DecidableEq

/-- Fresh hook state: both `useState` cells start at null, no effect has
run yet. -/
def HookState.initial : HookState :=
  { diffSummary := none, status := none, deps1 := none, deps2 := none }

/-- Apply the recomputation effect body to the hook state: the summary
cell is always assigned, the status cell only when the run calls
`setStatus`. -/
def runDiffEffect (inp : HookInput) (h : HookState) : HookState :=
  let r := recomputeDiffEffect inp.isMobile inp.fileContent inp.bufferText
  { h with
    diffSummary := r.summary
    status := match r.statusUpdate with
      | some st => some st
      | none => h.status }

/-- The error-override effect body (source lines 109-112): when
`fileErrorText` is truthy (present and nonempty), replace the status with
it at kind error. -/
def runErrorEffect (inp : HookInput) (h : HookState) : HookState :=
  match inp.fileErrorText with
  | some e => if e = "" then h else { h with status := some ⟨e, MType.error⟩ }
  | none => h

/-- One render commit: each effect re-runs exactly when its dependency
array differs from the last run (React effect semantics), in declaration
order — the recomputation effect first, the error-override effect second. -/
def renderStep (inp : HookInput) (h : HookState) : HookState :=
  let d1 := (inp.bufferText, inp.fileContent, inp.isMobile)
  let h1 := if h.deps1 = some d1 then h else { runDiffEffect inp h with deps1 := some d1 }
  if h1.deps2 = some inp.fileErrorText then h1
  else { runErrorEffect inp h1 with deps2 := some inp.fileErrorText }

/-- Combined state of the active session and the Controller, as the reload
and focus callbacks observe it: the session fields (`content`, `error`,
`isLoading`, `isSaving` of the Live Session Store record), the Gateway
pairing validity, the Controller status, and a counter of underlying
Gateway read calls issued so far. -/
structure SysState where
  content : Option String
  error : Option String
  isLoading : Bool
  isSaving : Bool
  isPairingValid : Bool
  status : Option FileOperationStatus
  readCalls : Nat
deriving DecidableEq

/-- Derived flag `fileHasContent` (source line 72): the session content is present. -/
def fileHasContent (s : SysState) : Bool :=
  s.content.isSome

/-- Modelled from the spec: the synchronous start of the Gateway `read`
issued by `reloadFileContent` — the function comes from `useLiveFile` /
`store-live-file`, which are not among the given sources. Per §4.2 `read`
performs the external read, and per §5 "duplicate requests are suppressed
by the `isLoading` check": a read requested while one is in flight issues
no second underlying read; otherwise the session is marked loading and one
underlying read is issued. -/
def gatewayReadStart (s : SysState) : SysState :=
  if s.isLoading then s
  else { s with isLoading := true, readCalls := s.readCalls + 1 }

/-- The status set when a reload is requested while a load is in flight. -/
def alreadyLoadingStatus : FileOperationStatus :=
  ⟨"Already Loading file...", MType.info⟩

/-- The status set when a reload is requested before any content exists. -/
def readingFileStatus : FileOperationStatus :=
  ⟨"Reading file...", MType.info⟩

/-- Source callback `_handleReloadFileContent` (lines 123-130), up to and including
the start of the awaited `reloadFileContent` call: when a load is in
flight set the "Already Loading file..." info status; when no content has
been loaded set the "Reading file..." info status; then request the
Gateway read. Returns the new state together with the list of statuses the
invocation set, in order. -/
def handleReloadFileContent (s : SysState) : SysState × List FileOperationStatus :=
  let r1 :=
    if s.isLoading then ({ s with status := some alreadyLoadingStatus }, [alreadyLoadingStatus])
    else (s, [])
  let r2 :=
    if fileHasContent r1.1 then r1
    else ({ r1.1 with status := some readingFileStatus }, r1.2 ++ [readingFileStatus])
  (gatewayReadStart r2.1, r2.2)

/-- Derived flag `shallUpdateOnRefocus` (source line 75). -/
def shallUpdateOnRefocus (s : SysState) : Bool :=
  s.isPairingValid && fileHasContent s

/-- The focus-observer callback (source lines 285-290): on a focus event,
when the window became focused and `shallUpdateOnRefocus` holds, invoke
`_handleReloadFileContent()`. The observer itself (`WindowFocusObserver`,
not among the given sources) delivers `focused = true` on every transition
of the host window into the focused state. Returns the new state and
whether reload was invoked. -/
def windowFocusCallback (focused : Bool) (s : SysState) : SysState × Bool :=
  if focused && shallUpdateOnRefocus s then ((handleReloadFileContent s).1, true)
  else (s, false)

/-- A thrown JavaScript value as the pairing `catch` block (source lines
139-141) can observe it: either a string, or an object carrying an
optional `message` property and a string conversion. -/
inductive JSVal where
  | vstring (s : String)
  | vobject (message : Option String) (str : String)
deriving DecidableEq

/-- JavaScript truthiness of `error?.message`: present and nonempty. -/
def jsTruthy : Option String → Bool
  | none => false
  | some s => !(s == "")

/-- The `message` property reached by `error?.message`: objects expose
their field, strings have no `message` property. -/
def jsMessage : JSVal → Option String
  | JSVal.vstring _ => none
  | JSVal.vobject m _ => m

/-- Whether the typeof-string test accepts the value. -/
def jsIsString : JSVal → Bool
  | JSVal.vstring _ => true
  | JSVal.vobject _ _ => false

/-- The string conversion performed by template-literal interpolation. -/
def jsToString : JSVal → String
  | JSVal.vstring s => s
  | JSVal.vobject _ str => str

/-- The status set by the `catch` block of `handlePairNewFSFHandle`
(source line 140). JavaScript operator precedence groups the template
expression so that the disjunction of message-truthiness and the
typeof-string test is the ternary condition as a whole: a truthy
condition interpolates the thrown value itself, not its `message`
property, and the fallback text is produced otherwise. -/
def pairingErrorStatus (error : JSVal) : FileOperationStatus :=
  { message := "Error pairing the file: " ++
      (if jsTruthy (jsMessage error) || jsIsString error then jsToString error
       else "Unknown error")
    mtype := MType.error }

/-- Claim C1: from any state with no load in flight, two reload
invocations in rapid succession (the second while the first is still in
flight) issue exactly one underlying Gateway read; the first invocation
sets no "already loading" status and the second sets exactly one
informational "Already Loading file..." status. -/
theorem reload_inflight_single_read (s : SysState) (h : s.isLoading = false) :
    (handleReloadFileContent (handleReloadFileContent s).1).1.readCalls = s.readCalls + 1 ∧
    ((handleReloadFileContent s).2).count alreadyLoadingStatus = 0 ∧
    ((handleReloadFileContent (handleReloadFileContent s).1).2).count alreadyLoadingStatus = 1 := by
  obtain ⟨c, e, il, isv, ipv, st, rc⟩ := s
  simp only at h
  subst h
  cases c <;>
    simp [handleReloadFileContent, fileHasContent, gatewayReadStart,
      alreadyLoadingStatus, readingFileStatus, List.count_cons] <;>
    decide

/-- Claim C1 witness: a concrete loaded, idle session. -/
theorem reload_inflight_single_read_witness :
    (handleReloadFileContent (handleReloadFileContent ⟨some "x", none, false, false, true, none, 0⟩).1).1.readCalls = 0 + 1 ∧
    ((handleReloadFileContent (⟨some "x", none, false, false, true, none, 0⟩ : SysState)).2).count alreadyLoadingStatus = 0 ∧
    ((handleReloadFileContent (handleReloadFileContent ⟨some "x", none, false, false, true, none, 0⟩).1).2).count alreadyLoadingStatus = 1 :=
  reload_inflight_single_read ⟨some "x", none, false, false, true, none, 0⟩ rfl

/-- Claim C2: whenever the recomputation runs with either side absent, the
diff summary is set to null and the run sets no status (the status is left
unset by this recomputation). -/
theorem recompute_absent_side (isMobile : Bool) (fileContent bufferText : Option String)
    (h : fileContent = none ∨ bufferText = none) :
    (recomputeDiffEffect isMobile fileContent bufferText).summary = none ∧
    (recomputeDiffEffect isMobile fileContent bufferText).statusUpdate = none := by
  cases fileContent with
  | none => cases bufferText <;> simp [recomputeDiffEffect]
  | some fc =>
    cases bufferText with
    | none => simp [recomputeDiffEffect]
    | some bt => rcases h with h | h <;> simp at h

/-- Claim C2 witness: absent file content against a present buffer. -/
theorem recompute_absent_side_witness :
    (recomputeDiffEffect false none (some "draft")).summary = none ∧
    (recomputeDiffEffect false none (some "draft")).statusUpdate = none :=
  recompute_absent_side false none (some "draft") (Or.inl rfl)

/-- Claim C4: when both sides are present and exactly equal, the
recomputation sets the summary to zero insertions and deletions and an
info-kind "identical" status, and performs no `calculateDiffStats` call. -/
theorem recompute_identical_short_circuit (isMobile : Bool) (t : String) :
    (recomputeDiffEffect isMobile (some t) (some t)).summary = some ⟨0, 0⟩ ∧
    (recomputeDiffEffect isMobile (some t) (some t)).statusUpdate =
      some ⟨if isMobile then "Identical to File." else "The File is identical to this Document.", MType.info⟩ ∧
    (recomputeDiffEffect isMobile (some t) (some t)).diffCalls = 0 := by
  simp [recomputeDiffEffect]

/-- Claim C5: for present, unequal sides the summary is the Diff
Summarizer output and the status is derived from it by priority: both
counts nonzero, then insertions only, then deletions only (each of kind
changes), and a no-changes info status when both counts are zero. -/
theorem recompute_status_priority (isMobile : Bool) (fc bt : String) (n m : Nat)
    (hne : fc ≠ bt) (hsum : calculateDiffStats fc bt = ⟨n, m⟩) :
    (recomputeDiffEffect isMobile (some fc) (some bt)).summary = some ⟨n, m⟩ ∧
    (n ≠ 0 → m ≠ 0 →
      (recomputeDiffEffect isMobile (some fc) (some bt)).statusUpdate =
        some ⟨"Document has " ++ toString n ++ " insertions and " ++ toString m ++ " deletions.", MType.changes⟩) ∧
    (n ≠ 0 → m = 0 →
      (recomputeDiffEffect isMobile (some fc) (some bt)).statusUpdate =
        some ⟨"Document has " ++ toString n ++ " insertions.", MType.changes⟩) ∧
    (n = 0 → m ≠ 0 →
      (recomputeDiffEffect isMobile (some fc) (some bt)).statusUpdate =
        some ⟨"Document has " ++ toString m ++ " deletions.", MType.changes⟩) ∧
    (n = 0 → m = 0 →
      (recomputeDiffEffect isMobile (some fc) (some bt)).statusUpdate =
        some ⟨"No changes.", MType.info⟩) := by
  refine ⟨?_, ?_, ?_, ?_, ?_⟩ <;>
    simp [recomputeDiffEffect, hne, hsum]
  · intro hn hm; simp [hn, hm]
  · intro hn hm; simp [hn, hm]
  · intro hn hm; simp [hn, hm]
  · intro hn hm; simp [hn, hm]

/-- Claim C5 witness: one concrete unequal pair hitting the
both-nonzero branch. -/
theorem recompute_status_priority_witness :
    (recomputeDiffEffect false (some "x") (some "y")).statusUpdate =
      some ⟨"Document has " ++ toString 1 ++ " insertions and " ++ toString 1 ++ " deletions.", MType.changes⟩ :=
  (recompute_status_priority false "x" "y" 1 1 (by decide) (by decide)).2.1
    (by decide) (by decide)

/-- Claim C6: with file content "hello" and buffer "hello world" the
summary is six insertions and no deletions and the status reads
"Document has 6 insertions." at kind changes. -/
theorem recompute_hello_world_scenario :
    calculateDiffStats "hello" "hello world" = ⟨6, 0⟩ ∧
    (recomputeDiffEffect false (some "hello") (some "hello world")).summary = some ⟨6, 0⟩ ∧
    (recomputeDiffEffect false (some "hello") (some "hello world")).statusUpdate =
      some ⟨"Document has 6 insertions.", MType.changes⟩ := by
  refine ⟨by decide, by decide, by decide⟩

/-- Claim C3 counterexample: a concrete trace in which the session keeps
reporting the nonempty error "E" while the visible status is a
diff-derived changes message, not the error. After a first render commit
the error narration is visible; a second commit with a changed buffer and
the same error re-runs only the recomputation effect, so the diff-derived
status supersedes the error narration even though the session error is
still nonempty. -/
theorem error_override_stale_counterexample :
    (renderStep ⟨some "b", some "c", some "E", false⟩ HookState.initial).status =
      some ⟨"E", MType.error⟩ ∧
    (renderStep ⟨some "b2", some "c", some "E", false⟩
        (renderStep ⟨some "b", some "c", some "E", false⟩ HookState.initial)).status =
      some ⟨"Document has 2 insertions and 1 deletions.", MType.changes⟩ ∧
    (⟨some "b2", some "c", some "E", false⟩ : HookInput).fileErrorText = some "E" ∧
    ¬ ("E" = "") ∧
    ¬ ((renderStep ⟨some "b2", some "c", some "E", false⟩
        (renderStep ⟨some "b", some "c", some "E", false⟩ HookState.initial)).status =
      some ⟨"E", MType.error⟩) := by
  refine ⟨by decide, by decide, rfl, by decide, by decide⟩

/-- Claim C3 (amended): when the session error text changes to a nonempty
value, the render commit ends with that error text as the visible status
at kind error, running after and overriding any diff-derived status from
the same commit; the override re-fires only on a change of the error text. -/
theorem error_override_on_error_change (inp : HookInput) (h : HookState) (e : String)
    (he : inp.fileErrorText = some e) (hne : ¬ (e = ""))
    (hch : ¬ (h.deps2 = some inp.fileErrorText)) :
    (renderStep inp h).status = some ⟨e, MType.error⟩ := by
  have hch2 : ¬ (h.deps2 = some (some e)) := he ▸ hch
  by_cases hd : h.deps1 = some (inp.bufferText, inp.fileContent, inp.isMobile) <;>
    simp [renderStep, hd, runDiffEffect, runErrorEffect, he, hne, hch2]

/-- Claim C3 witness: a fresh hook state receiving the nonempty error "E". -/
theorem error_override_on_error_change_witness :
    (renderStep ⟨some "b", some "c", some "E", false⟩ HookState.initial).status =
      some ⟨"E", MType.error⟩ :=
  error_override_on_error_change ⟨some "b", some "c", some "E", false⟩ HookState.initial "E"
    rfl (by decide) (by decide)

/-- Claim C8 counterexample: on the identical input "abc", the summary is
zero insertions and deletions, yet `calculateDiffStats` performs a
diff-engine invocation — the function body calls the engine
unconditionally, so "identical strings yield this result without the diff
algorithm being invoked" fails for `calculateDiffStats` itself. -/
theorem diff_invoked_on_identical_counterexample :
    (calculateDiffStatsInstr "abc" "abc").1 = ⟨0, 0⟩ ∧
    ¬ ((calculateDiffStatsInstr "abc" "abc").2 = 0) := by
  refine ⟨by decide, by decide⟩

/-- Claim C8 (amended): `calculateDiffStats A A` returns zero insertions
and deletions for every text A, the empty string included; the
no-invocation fast path for identical strings lives in the Controller
recomputation, which short-circuits before calling `calculateDiffStats`,
not inside `calculateDiffStats` itself. -/
theorem calculateDiffStats_identical_zero (A : String) (isMobile : Bool) :
    calculateDiffStats A A = ⟨0, 0⟩ ∧
    (recomputeDiffEffect isMobile (some A) (some A)).diffCalls = 0 := by
  constructor
  · rw [calculateDiffStats_eq_lens]
    simp only [makeDiff, if_pos rfl]
    by_cases he : A.data = [] <;> simp [he, insLen, delLen]
  · simp [recomputeDiffEffect]

/-- Claim C9: on a focus event that turns the window focused, the callback
invokes reload exactly when the pairing is valid and file content has been
loaded; in particular an invalid pairing yields no reload call. -/
theorem focus_refresh_iff (s : SysState) :
    ((windowFocusCallback true s).2 = true ↔
      s.isPairingValid = true ∧ fileHasContent s = true) ∧
    (s.isPairingValid = false → (windowFocusCallback true s).2 = false) := by
  cases hpv : s.isPairingValid <;> cases hfc : fileHasContent s <;>
    simp [windowFocusCallback, shallUpdateOnRefocus, hpv, hfc]

/-- Claim C9 witness: a focus transition with content loaded but an
invalid pairing triggers no reload. -/
theorem focus_refresh_iff_witness :
    (windowFocusCallback true ⟨some "x", none, false, false, false, none, 0⟩).2 = false :=
  (focus_refresh_iff ⟨some "x", none, false, false, false, none, 0⟩).2 rfl

/-- Claim C10: in the pairing catch handler, a thrown value with a truthy
`message` property is interpolated as the value itself (its string
conversion), not as its `message` property; the "Unknown error" fallback
appears exactly when `message` is falsy and the value is not a string;
the status kind is error. -/
theorem pairing_error_interpolation (e : JSVal) :
    (jsTruthy (jsMessage e) = true →
      (pairingErrorStatus e).message = "Error pairing the file: " ++ jsToString e) ∧
    (jsTruthy (jsMessage e) = false → jsIsString e = false →
      (pairingErrorStatus e).message = "Error pairing the file: " ++ "Unknown error") ∧
    (jsTruthy (jsMessage e) = false → jsIsString e = true →
      (pairingErrorStatus e).message = "Error pairing the file: " ++ jsToString e) ∧
    (pairingErrorStatus e).mtype = MType.error := by
  refine ⟨fun h => ?_, fun h1 h2 => ?_, fun h1 h2 => ?_, rfl⟩ <;>
    simp [pairingErrorStatus, *]

/-- Claim C10 witness: an object whose `message` is "boom" but whose
string conversion differs — the interpolated text is the conversion, not
the message. -/
theorem pairing_error_interpolation_witness :
    (pairingErrorStatus (JSVal.vobject (some "boom") "CustomStringConversion")).message =
      "Error pairing the file: " ++ "CustomStringConversion" :=
  (pairing_error_interpolation (JSVal.vobject (some "boom") "CustomStringConversion")).1
    (by decide)

end LiveFile
